import Mathlib

/-!
Verification of the heuristic content-quality scoring and SEO-analysis engine
(`src/utils/content_scorer.py` and `src/utils/seo_optimizer.py`).

Texts are modelled as `List Char` (ASCII model of Python `str`: `str.lower`,
`\w`, `\s` and `[A-Z]` are modelled for the ASCII range, which covers every
character the heuristics inspect).  Scores are modelled as `ℚ`: every number
produced by the scorer is a small half-integer or a ratio of small integers,
and no reachable value sits at a binary-float rounding tie, so exact rational
arithmetic agrees with the Python float arithmetic on all reachable inputs.
Reports are records; the `timestamp` field of the Python report is the output
of `datetime.now()` and is deliberately not part of the model (the claims
exclude it).  Python dicts are modelled as insertion-ordered association
lists with overwrite-in-place semantics (`dictInsert`).
-/

set_option maxRecDepth 8000

namespace ContentBlitz

/-- A Python string, modelled as its list of characters. -/
abbrev Str := List Char

/-- Python `\s` for the ASCII range: space, tab, newline, carriage return,
vertical tab, form feed. -/
def isPySpace (c : Char) : Bool :=
  c == ' ' || c == '\t' || c == '\n' || c == '\r' || c == '\x0b' || c == '\x0c'

/-- Python `\w` for the ASCII range: letters, digits, underscore. -/
def isWordChar (c : Char) : Bool :=
  c.isAlphanum || c == '_'

/-- `str.lower()` for the ASCII range. -/
def lowerStr (s : Str) : Str := s.map Char.toLower

/-- `leadsWith pat s` holds when `pat` is an initial segment of `s`
(the anchored-literal-match primitive used by the substring scanners). -/
def leadsWith : Str → Str → Bool
  | [], _ => true
  | _ :: _, [] => false
  | a :: as, b :: bs => a == b && leadsWith as bs

/-- Python `needle in hay` (substring containment; `"" in s` is `True`). -/
def isSubstr (needle : Str) : Str → Bool
  | [] => needle.isEmpty
  | c :: rest => leadsWith needle (c :: rest) || isSubstr needle rest

/-- Auxiliary scan for `countOcc`: non-overlapping left-to-right count of a
non-empty needle, with fuel bounding the recursion (one character is consumed
per step, so `hay.length` fuel always suffices). -/
def countOccAux (needle : Str) : Nat → Str → Nat
  | 0, _ => 0
  | _ + 1, [] => 0
  | fuel + 1, c :: rest =>
    if leadsWith needle (c :: rest) then
      1 + countOccAux needle fuel ((c :: rest).drop needle.length)
    else
      countOccAux needle fuel rest

/-- Python `hay.count(needle)`: number of non-overlapping occurrences of
`needle` in `hay`, scanning left to right; CPython returns `len(hay) + 1`
for the empty needle. -/
def countOcc (needle hay : Str) : Nat :=
  if needle = [] then hay.length + 1 else countOccAux needle hay.length hay

/-- Python `s.strip()`: remove leading and trailing whitespace. -/
def pyStrip (s : Str) : Str :=
  ((s.dropWhile isPySpace).reverse.dropWhile isPySpace).reverse

/-- Maximal runs of characters satisfying `p`, with fuel (the model of
`re.findall` for patterns of the shape `\b\w+\b` or a character-class `+`:
such patterns match exactly the maximal runs of the class). -/
def runsAux (p : Char → Bool) : Nat → Str → List Str
  | 0, _ => []
  | _ + 1, [] => []
  | fuel + 1, c :: rest =>
    if p c then (c :: rest.takeWhile p) :: runsAux p fuel (rest.dropWhile p)
    else runsAux p fuel rest

/-- Maximal runs of characters satisfying `p`. -/
def runs (p : Char → Bool) (s : Str) : List Str := runsAux p s.length s

/-- `re.findall(r'\b\w+\b', s)` produces exactly the maximal word-character
runs of `s`; the word count is their number. -/
def countWords (s : Str) : Nat := (runs isWordChar s).length

/-- Split `s` at every maximal run of characters satisfying `p`, keeping
empty segments at the ends (`re.split(r'[.!?]+', s)` semantics). -/
def splitOnRunsAux (p : Char → Bool) : Nat → Str → List Str
  | 0, s => [s]
  | fuel + 1, s =>
    let seg := s.takeWhile (fun c => !p c)
    let rest := s.drop seg.length
    match rest with
    | [] => [seg]
    | _ => seg :: splitOnRunsAux p fuel (rest.dropWhile p)

/-- Split on maximal runs of `p`-characters. -/
def splitOnRuns (p : Char → Bool) (s : Str) : List Str :=
  splitOnRunsAux p s.length s

/-- First occurrence of a (non-empty) separator: the part before it and the
part after it. -/
def splitFirst (sep : Str) : Str → Option (Str × Str)
  | [] => none
  | c :: rest =>
    if leadsWith sep (c :: rest) then some ([], (c :: rest).drop sep.length)
    else
      match splitFirst sep rest with
      | some (pre, post) => some (c :: pre, post)
      | none => none

/-- Fuelled scan for `pySplit`. -/
def pySplitAux (sep : Str) : Nat → Str → List Str
  | 0, s => [s]
  | fuel + 1, s =>
    match splitFirst sep s with
    | none => [s]
    | some (pre, post) => pre :: pySplitAux sep fuel post

/-- Python `s.split(sep)` for a non-empty separator: split at each
non-overlapping occurrence, left to right, keeping empty segments
(`"".split(sep) == [""]`). -/
def pySplit (sep s : Str) : List Str := pySplitAux sep (s.length + 1) s

/-- The suffixes of `s` that start just after a newline character. -/
def newlineSuffixes : Str → List Str
  | [] => []
  | c :: rest =>
    if c == '\n' then rest :: newlineSuffixes rest else newlineSuffixes rest

/-- The suffixes of `s` at the positions where `re.MULTILINE` `^` matches:
the whole string plus every position just after a `'\n'`. -/
def lineStartSuffixes (s : Str) : List Str := s :: newlineSuffixes s

/-- `^#{n}\s+` tested at one line start: exactly reaches `n` hash marks
followed by a whitespace character (a line with more than `n` hashes fails
because `'#'` is not whitespace; `'\n'` itself is whitespace, so `"##\n"`
matches `^##\s+`). -/
def matchHashSpace (n : Nat) (s : Str) : Bool :=
  s.take n == List.replicate n '#' &&
    (match s.drop n with
     | [] => false
     | c :: _ => isPySpace c)

/-- `len(re.findall(r'^#{n}\s+', s, re.MULTILINE))`.  The whitespace run a
match consumes contains no `'#'`, so no line start inside a consumed region
can begin another match; counting matches per line start therefore equals
the non-overlapping `findall` count. -/
def countH (n : Nat) (s : Str) : Nat :=
  (lineStartSuffixes s).countP (matchHashSpace n)

/-- `re.search(r'\d+%...', s)`-style test: some digit is immediately followed
by `pat` (a digit run followed by `pat` exists iff the last digit of the run
is immediately followed by `pat`). -/
def existsDigitThen (pat : Str) : Str → Bool
  | [] => false
  | c :: rest => (c.isDigit && leadsWith pat rest) || existsDigitThen pat rest

/-- `\s*[-*+]\s` tested at one line start (for
`re.search(r'^\s*[-*+]\s+', s, re.MULTILINE)`): skip whitespace (the pattern
may cross newlines; the outcome is unchanged because every skipped newline
opens another line start), then a bullet character, then one whitespace
character. -/
def matchBulletAt : Str → Bool
  | [] => false
  | c :: rest =>
    if isPySpace c then matchBulletAt rest
    else if c == '-' || c == '*' || c == '+' then
      match rest with
      | [] => false
      | d :: _ => isPySpace d
    else false

/-- `bool(re.search(r'^\s*[-*+]\s+', s, re.MULTILINE))`. -/
def hasLists (s : Str) : Bool := (lineStartSuffixes s).any matchBulletAt

/-- The last `n` characters, Python `s[-n:]` (the whole string when shorter). -/
def lastChars (n : Nat) (s : Str) : Str := s.drop (s.length - n)

/-- One attempted match of `^#{1,6}\s+(.+)$` at a line start: `1`–`6` hash
marks (a longer hash run cannot match, since the leftover hash is not
whitespace), then greedy `\s+`, then the capture `(.+)` (at least one
non-newline character) up to the end of the line.  The greedy `\s+` may run
across newlines, in which case the capture comes from a later line; when the
string ends inside the whitespace run, the engine backtracks until the
capture can start at the last non-newline whitespace character.  Returns the
capture and the remainder of the string after the match. -/
def headingMatch (s : Str) : Option (Str × Str) :=
  let m := (s.takeWhile (· == '#')).length
  if 1 ≤ m ∧ m ≤ 6 then
    let t := s.drop m
    let w := t.takeWhile isPySpace
    let rest := t.drop w.length
    if w.length = 0 then none
    else if rest.isEmpty then
      match (w.drop 1).reverse.dropWhile (· == '\n') with
      | [] => none
      | c :: _ => some ([c], ((w.drop 1).reverse.takeWhile (· == '\n')).reverse)
    else some (rest.takeWhile (· != '\n'), rest.dropWhile (· != '\n'))
  else none

/-- Fuelled scan for `re.findall(r'^#{1,6}\s+(.+)$', s, re.MULTILINE)`:
try a heading match at every line start, resuming after the end of each
match (matches are non-overlapping; a match always ends on a non-newline
character, so the resumption point is never itself a line start). -/
def findHeadingsAux : Nat → Bool → Str → List Str
  | 0, _, _ => []
  | _ + 1, _, [] => []
  | fuel + 1, atStart, c :: rest =>
    if atStart then
      match headingMatch (c :: rest) with
      | some (cap, rem) => cap :: findHeadingsAux fuel false rem
      | none => findHeadingsAux fuel (c == '\n') rest
    else findHeadingsAux fuel (c == '\n') rest

/-- The captured heading texts of
`re.findall(r'^#{1,6}\s+(.+)$', content, re.MULTILINE)`. -/
def headingsOf (content : Str) : List Str :=
  findHeadingsAux content.length true content

/-- After the `](` of a candidate link: the lazy `.+?\)` part — one
unconditional non-newline character, then everything up to the first `')'`,
failing on a newline. -/
def findCloseParen : Str → Option Str
  | [] => none
  | c :: rest =>
    if c == ')' then some rest
    else if c == '\n' then none
    else findCloseParen rest

/-- Inside a candidate link after `'['` and one consumed character: the lazy
`.+?\]\(` part — scan to the first `']'` immediately followed by `'('`,
failing on a newline. -/
def findBrackParen : Str → Option Str
  | [] => none
  | [_] => none
  | c :: d :: rest =>
    if c == '\n' then none
    else if c == ']' && d == '(' then some rest
    else findBrackParen (d :: rest)

/-- One attempted match of `\[.+?\]\(.+?\)` at the head of `s`, returning
the rest of the string after the match.  The lazy groups make the first
`](`-then-`)` resolution canonical; when that first resolution fails the
whole attempt fails (any extension of the first lazy group would have to
cross the same blocking newline or string end), so no further backtracking
is modelled. -/
def matchLinkAt : Str → Option Str
  | '[' :: c :: rest =>
    if c == '\n' then none
    else
      match findBrackParen rest with
      | some afterParen =>
        match afterParen with
        | [] => none
        | e :: rest2 => if e == '\n' then none else findCloseParen rest2
      | none => none
  | _ => none

/-- Fuelled scan for `len(re.findall(r'\[.+?\]\(.+?\)', s))`: non-overlapping
matches, resuming after the end of each match. -/
def countLinksAux : Nat → Str → Nat
  | 0, _ => 0
  | _ + 1, [] => 0
  | fuel + 1, c :: rest =>
    match matchLinkAt (c :: rest) with
    | some rem => 1 + countLinksAux fuel rem
    | none => countLinksAux fuel rest

/-- `len(re.findall(r'\[.+?\]\(.+?\)', content))`. -/
def countLinks (content : Str) : Nat := countLinksAux content.length content

/-- A character of the emoji classes
`\U0001F600-\U0001F64F` and `\U0001F300-\U0001F5FF`. -/
def isEmojiChar (c : Char) : Bool :=
  (0x1F600 ≤ c.toNat && c.toNat ≤ 0x1F64F) ||
  (0x1F300 ≤ c.toNat && c.toNat ≤ 0x1F5FF)

/-- `round(q, n)` of Python, in exact rational arithmetic: round
`q · 10^n` to the nearest integer and scale back (stated via `Rat.floor`,
which the kernel can evaluate; `pyRound_eq_round` below identifies it with
Mathlib's `round`).  Python rounds the nearest binary double half-to-even;
no value reachable in any claim below sits at an exact decimal tie, so the
rounding direction at ties is immaterial. -/
def pyRound (n : Nat) (q : ℚ) : ℚ := ((q * 10 ^ n + 1 / 2).floor : ℚ) / 10 ^ n

/-- The terminator class `[.!?]` of the sentence splitter. -/
def isSentTerm (c : Char) : Bool := c == '.' || c == '!' || c == '?'

/-- `[s.strip() for s in re.split(r'[.!?]+', content) if s.strip()]`. -/
def sentencesOf (content : Str) : List Str :=
  ((splitOnRuns isSentTerm content).map pyStrip).filter (fun s => !s.isEmpty)

/-- One conditional increment `q if c else 0` of a Python
`if c: score += q` step. -/
def bonus (c : Prop) [Decidable c] (q : ℚ) : ℚ := if c then q else 0

/-- One conditional increment of a Python `if c1: score += q1
elif c2: score += q2` step. -/
def bonus2 (c1 : Prop) [Decidable c1] (q1 : ℚ)
    (c2 : Prop) [Decidable c2] (q2 : ℚ) : ℚ :=
  if c1 then q1 else if c2 then q2 else 0

/-- The storytelling-word table of `_score_engagement`. -/
def storyWords : List Str :=
  ["story".data, "experience".data, "learned".data, "discovered".data,
   "realized".data]

/-- The emotion-word table of `_score_engagement`. -/
def emotionWords : List Str :=
  ["amazing".data, "incredible".data, "excited".data, "surprised".data,
   "frustrated".data, "happy".data]

/-- `ContentScorer._score_engagement`.  Each Python `score += c if cond`
step is rendered as an added conditional increment; the final value is the
base plus the increments, capped at 10. -/
def scoreEngagement (content : Str) : ℚ :=
  let lower := lowerStr content
  min 10 (5
    + bonus (content.contains '?') 1
    + bonus (storyWords.any (fun w => isSubstr w lower)) 1
    + bonus (isSubstr "example".data lower
        || isSubstr "for instance".data lower) 0.5
    + bonus (existsDigitThen "%".data content
        || existsDigitThen " percent".data content) 1
    + bonus (emotionWords.any (fun w => isSubstr w lower)) 0.5)

/-- The introduction-cue table of `_score_structure`. -/
def introWords : List Str := ["introduction".data, "in this".data, "today".data]

/-- The conclusion-cue table of `_score_structure`. -/
def conclWords : List Str :=
  ["conclusion".data, "in summary".data, "to wrap up".data]

/-- `ContentScorer._score_structure`. -/
def scoreStructure (content : Str) : ℚ :=
  let h2 := countH 2 content
  min 10 (5
    + bonus2 (3 ≤ h2) 2 (2 ≤ h2) 1
    + bonus (hasLists content) 1
    + bonus (5 ≤ (pySplit ['\n', '\n'] content).length) 1
    + bonus (500 < content.length)
        (bonus (introWords.any
            (fun w => isSubstr w (lowerStr (content.take 200)))) 0.5
         + bonus (conclWords.any
            (fun w => isSubstr w (lowerStr (lastChars 200 content)))) 0.5))

/-- The transition-word table of `_score_clarity`. -/
def transitionWords : List Str :=
  ["however".data, "therefore".data, "moreover".data, "furthermore".data,
   "additionally".data, "consequently".data]

/-- `ContentScorer._score_clarity`: base 7; when there is at least one
sentence, penalise a mean sentence length above 25 (by 2) or above 20
(by 1) and reward one below 15 (by 1); reward a transition word; clamp to
`[0, 10]`. -/
def scoreClarity (content : Str) : ℚ :=
  let nSent := (sentencesOf content).length
  let nWords := countWords content
  let avg : ℚ := (nWords : ℚ) / (nSent : ℚ)
  min 10 (max 0 (7
    + bonus (nSent ≠ 0)
        (bonus2 (25 < avg) (-2) (20 < avg) (-1) + bonus (avg < 15) 1)
    + bonus (transitionWords.any (fun w => isSubstr w (lowerStr content))) 1))

/-- The action-verb table of `_score_actionability`. -/
def actionWords : List Str :=
  ["learn".data, "discover".data, "implement".data, "apply".data, "use".data,
   "try".data, "start".data, "begin".data]

/-- The call-to-action table of `_score_actionability`. -/
def actionCtaWords : List Str :=
  ["try".data, "start".data, "download".data, "sign up".data,
   "learn more".data, "get started".data]

/-- `ContentScorer._score_actionability`. -/
def scoreActionability (content : Str) : ℚ :=
  let lower := lowerStr content
  let actionCount := (actionWords.filter (fun w => isSubstr w lower)).length
  min 10 (5
    + min 2 ((actionCount : ℚ) * 0.5)
    + bonus (isSubstr "step".data lower
        || existsDigitThen ".".data content) 1.5
    + bonus (isSubstr "example".data lower
        || isSubstr "here's how".data lower) 1
    + bonus (actionCtaWords.any (fun w => isSubstr w lower)) 0.5)

/-- `ContentScorer._score_professionalism`: base 8; penalise more than 5
(by 2) or more than 3 (by 1) exclamation marks; penalise more than 3
all-caps words of length at least 4 (`\b[A-Z]{4,}\b`: a maximal
word-character run made of at least four uppercase letters); reward a
level-1 heading line; clamp to `[0, 10]`. -/
def scoreProfessionalism (content : Str) : ℚ :=
  let exclam := content.count '!'
  let capsCount :=
    ((runs isWordChar content).filter
      (fun r => 4 ≤ r.length && r.all Char.isUpper)).length
  min 10 (max 0 (8
    - bonus2 (5 < exclam) 2 (3 < exclam) 1
    - bonus (3 < capsCount) 1
    + bonus ((lineStartSuffixes content).any (matchHashSpace 1)) 1))

/-- The bold-claim table of `_score_hook`. -/
def boldWords : List Str :=
  ["never".data, "always".data, "secret".data, "truth".data]

/-- `ContentScorer._score_hook`: scored on `content.split('\n')[0]`. -/
def scoreHook (content : Str) : ℚ :=
  let firstLine := content.takeWhile (· != '\n')
  min 10 (5
    + bonus ((pyStrip firstLine).getLast? == some '?') 2
    + bonus (existsDigitThen "%".data firstLine) 2
    + bonus (boldWords.any (fun w => isSubstr w (lowerStr firstLine))) 1
    + bonus (firstLine.length < 100) 1)

/-- The pronoun table of `_score_linkedin_engagement`. -/
def pronounWords : List Str :=
  ["you".data, "your".data, "we".data, "our".data]

/-- The engagement-prompt table of `_score_linkedin_engagement`. -/
def promptPhrases : List Str :=
  ["what do you think".data, "share your".data, "comment below".data]

/-- `ContentScorer._score_linkedin_engagement`. -/
def scoreLinkedinEngagement (content : Str) : ℚ :=
  let lower := lowerStr content
  min 10 (5
    + bonus (3 ≤ countOcc ['\n', '\n'] content) 1.5
    + bonus (content.contains '?') 1
    + bonus (pronounWords.any (fun w => isSubstr w lower)) 1
    + bonus (content.contains '#') 0.5
    + bonus (promptPhrases.any (fun w => isSubstr w lower)) 1)

/-- The call-to-action phrase table of `_score_cta`. -/
def ctaPhrases : List Str :=
  ["comment".data, "share".data, "follow".data, "connect".data,
   "reach out".data, "let me know".data, "what do you think".data,
   "join".data, "learn more".data]

/-- `ContentScorer._score_cta`. -/
def scoreCta (content : Str) : ℚ :=
  let lower := lowerStr content
  let ctaCount := (ctaPhrases.filter (fun w => isSubstr w lower)).length
  let lastSection := lowerStr (lastChars 200 content)
  min 10 (5
    + min 3 ((ctaCount : ℚ) * 1.5)
    + bonus (ctaPhrases.any (fun w => isSubstr w lastSection)) 2)

/-- `ContentScorer._score_linkedin_formatting`. -/
def scoreLinkedinFormatting (content : Str) : ℚ :=
  let emojiCount := (runs isEmojiChar content).length
  let charCount := content.length
  min 10 (max 0 (5
    + bonus (isSubstr ['\n', '\n'] content) 2
    + bonus2 (1 ≤ emojiCount ∧ emojiCount ≤ 5) 1.5 (10 < emojiCount) (-1)
    + bonus2 (500 ≤ charCount ∧ charCount ≤ 2000) 1.5 (3000 < charCount) (-1)))

/-- `ContentScorer._get_grade`: the fixed threshold table. -/
def getGrade (score : ℚ) : Str :=
  if 9 ≤ score then "A+".data
  else if 8.5 ≤ score then "A".data
  else if 8 ≤ score then "A-".data
  else if 7.5 ≤ score then "B+".data
  else if 7 ≤ score then "B".data
  else if 6.5 ≤ score then "B-".data
  else if 6 ≤ score then "C+".data
  else if 5.5 ≤ score then "C".data
  else "C-".data

/-- Python `str.title()` for the ASCII range: the first alphabetic character
of each alphabetic run is uppercased, the rest lowercased. -/
def pyTitleAux : Bool → Str → Str
  | _, [] => []
  | prevAlpha, c :: rest =>
    (if c.isAlpha then (if prevAlpha then c.toLower else c.toUpper) else c)
      :: pyTitleAux c.isAlpha rest

/-- Python `str.title()`. -/
def pyTitle (s : Str) : Str := pyTitleAux false s

/-- Python `s.replace(a, b)` for single characters. -/
def replaceChar (a b : Char) (s : Str) : Str :=
  s.map (fun c => if c == a then b else c)

/-- `ContentScorer._identify_strengths`: dimensions scoring at least 8,
human-formatted, with a fallback sentence when none qualify. -/
def identifyStrengths (scores : List (Str × ℚ)) : List Str :=
  let l := (scores.filter (fun p => 8 ≤ p.2)).map
    (fun p => pyTitle (replaceChar '_' ' ' p.1))
  if l.isEmpty then ["Good baseline quality".data] else l

/-- `ContentScorer._identify_improvements`: dimensions scoring below 6,
formatted as `Improve X`, with a fallback sentence when none qualify. -/
def identifyImprovements (scores : List (Str × ℚ)) : List Str :=
  let l := (scores.filter (fun p => p.2 < 6)).map
    (fun p => "Improve ".data ++ replaceChar '_' ' ' p.1)
  if l.isEmpty then ["Minor refinements only".data] else l

/-- The report of `ContentScorer.score_content`, minus the `timestamp` field
(which is `datetime.now().isoformat()` and outside the pure model); the
`character_count` key exists only in the LinkedIn variant, modelled by
`Option`. -/
structure ScoreReport where
  overall_score : ℚ
  dimension_scores : List (Str × ℚ)
  grade : Str
  character_count : Option Nat
  strengths : List Str
  improvements : List Str
  deriving DecidableEq, Repr

/-- `ContentScorer._score_blog_content`.  As in the source, the grade is
computed from the unrounded mean while the reported `overall_score` is the
rounded mean. -/
def scoreBlogContent (content : Str) : ScoreReport :=
  let scores : List (Str × ℚ) :=
    [("engagement".data, scoreEngagement content),
     ("structure".data, scoreStructure content),
     ("clarity".data, scoreClarity content),
     ("actionability".data, scoreActionability content),
     ("professionalism".data, scoreProfessionalism content)]
  let overall : ℚ := (scores.map Prod.snd).sum / (scores.length : ℚ)
  { overall_score := pyRound 1 overall
    dimension_scores := scores
    grade := getGrade overall
    character_count := none
    strengths := identifyStrengths scores
    improvements := identifyImprovements scores }

/-- `ContentScorer._score_linkedin_content`. -/
def scoreLinkedinContent (content : Str) : ScoreReport :=
  let scores : List (Str × ℚ) :=
    [("hook_strength".data, scoreHook content),
     ("engagement_potential".data, scoreLinkedinEngagement content),
     ("professionalism".data, scoreProfessionalism content),
     ("call_to_action".data, scoreCta content),
     ("formatting".data, scoreLinkedinFormatting content)]
  let overall : ℚ := (scores.map Prod.snd).sum / (scores.length : ℚ)
  { overall_score := pyRound 1 overall
    dimension_scores := scores
    grade := getGrade overall
    character_count := some content.length
    strengths := identifyStrengths scores
    improvements := identifyImprovements scores }

/-- `ContentScorer._score_general_content`. -/
def scoreGeneralContent (content : Str) : ScoreReport :=
  let scores : List (Str × ℚ) :=
    [("clarity".data, scoreClarity content),
     ("engagement".data, scoreEngagement content),
     ("professionalism".data, scoreProfessionalism content)]
  let overall : ℚ := (scores.map Prod.snd).sum / (scores.length : ℚ)
  { overall_score := pyRound 1 overall
    dimension_scores := scores
    grade := getGrade overall
    character_count := none
    strengths := identifyStrengths scores
    improvements := identifyImprovements scores }

/-- `ContentScorer.score_content`: dispatch on the `content_type` string;
any string other than `"blog"` and `"linkedin"` falls through to the
general variant. -/
def scoreContent (content : Str) (content_type : Str) : ScoreReport :=
  if content_type = "blog".data then scoreBlogContent content
  else if content_type = "linkedin".data then scoreLinkedinContent content
  else scoreGeneralContent content

/-- Python-dict insertion: overwrite the value in place when the key is
already present (keeping its original position), otherwise append at the
end. -/
def dictInsert {α : Type} (k : Str) (v : α) : List (Str × α) → List (Str × α)
  | [] => [(k, v)]
  | (k', v') :: rest =>
    if k' = k then (k, v) :: rest else (k', v') :: dictInsert k v rest

/-- One `keyword_analysis` entry of the SEO Optimizer
(`SEOOptimizer._analyze_keywords`); the stored `density` is the 2-decimal
rounded value, while `status` is computed from the unrounded density. -/
structure KeywordStat where
  count : Nat
  density : ℚ
  in_first_paragraph : Bool
  in_headings : Bool
  status : Str
  deriving DecidableEq, Repr

/-- The `readability` sub-report of `SEOOptimizer._analyze_readability`. -/
structure Readability where
  sentence_count : Nat
  avg_sentence_length : ℚ
  readability_level : Str
  paragraph_count : Nat
  deriving DecidableEq, Repr

/-- The `structure` sub-report of `SEOOptimizer._analyze_structure`. -/
structure StructureInfo where
  h1_count : Nat
  h2_count : Nat
  h3_count : Nat
  has_lists : Bool
  link_count : Nat
  has_proper_hierarchy : Bool
  deriving DecidableEq, Repr

/-- The full report of `SEOOptimizer.analyze_content` (the Python dict keys
`word_count`, `keyword_analysis`, `readability`, `structure`,
`recommendations`, `seo_score`). -/
structure SEOReport where
  word_count : Nat
  keyword_analysis : List (Str × KeywordStat)
  readability : Readability
  structure_info : StructureInfo
  recommendations : List Str
  seo_score : ℤ
  deriving DecidableEq, Repr

/-- `len(re.findall(r'\b\w+\b', content.lower()))`, the total word count
used for densities (`SEOOptimizer._count_words` and the `total_words` of
`_analyze_keywords`). -/
def totalWords (content : Str) : Nat := countWords (lowerStr content)

/-- `content.lower().count(keyword.lower())`. -/
def kwCount (content keyword : Str) : Nat :=
  countOcc (lowerStr keyword) (lowerStr content)

/-- The unrounded keyword density
`count / total_words * 100 if total_words > 0 else 0`. -/
def rawDensity (content keyword : Str) : ℚ :=
  if 0 < totalWords content then
    (kwCount content keyword : ℚ) / (totalWords content : ℚ) * 100
  else 0

/-- `SEOOptimizer._check_keyword_in_headings`: the lowered keyword occurs in
some lowered captured heading text. -/
def checkKeywordInHeadings (content kwLower : Str) : Bool :=
  (headingsOf content).any (fun h => isSubstr kwLower (lowerStr h))

/-- `SEOOptimizer._assess_keyword_usage`, applied to the unrounded density
and the count; the ideal density window is `(1.0, 2.5)` percent. -/
def assessKeywordUsage (density : ℚ) (count : Nat) : Str :=
  if count = 0 then "missing".data
  else if density < 1 then "too_low".data
  else if 2.5 < density then "too_high".data
  else "optimal".data

/-- The loop body of `SEOOptimizer._analyze_keywords` for one keyword:
count, rounded density, placement flags, and the status derived from the
unrounded density. -/
def keywordStat (content keyword : Str) : KeywordStat :=
  { count := kwCount content keyword
    density := pyRound 2 (rawDensity content keyword)
    in_first_paragraph :=
      isSubstr (lowerStr keyword) ((lowerStr content).take 500)
    in_headings := checkKeywordInHeadings content (lowerStr keyword)
    status := assessKeywordUsage (rawDensity content keyword)
                (kwCount content keyword) }

/-- `SEOOptimizer._analyze_keywords`: a Python dict built by iterating the
keyword list in input order; a duplicated keyword overwrites its earlier
entry (with the identical recomputed value). -/
def analyzeKeywords (content : Str) (keywords : List Str) :
    List (Str × KeywordStat) :=
  keywords.foldl (fun acc kw => dictInsert kw (keywordStat content kw) acc) []

/-- `SEOOptimizer._analyze_readability`: sentence count, average sentence
length (rounded to 1 decimal in the report, unrounded for the level test),
level thresholds 15 and 20, and `len(content.split('\n\n'))` paragraphs. -/
def analyzeReadability (content : Str) : Readability :=
  let nSent := (sentencesOf content).length
  let avg : ℚ := if nSent ≠ 0 then (countWords content : ℚ) / (nSent : ℚ) else 0
  { sentence_count := nSent
    avg_sentence_length := pyRound 1 avg
    readability_level :=
      if avg < 15 then "easy".data
      else if avg < 20 then "moderate".data
      else "difficult".data
    paragraph_count := (pySplit ['\n', '\n'] content).length }

/-- `SEOOptimizer._analyze_structure`. -/
def analyzeStructure (content : Str) : StructureInfo :=
  let h1 := countH 1 content
  let h2 := countH 2 content
  { h1_count := h1
    h2_count := h2
    h3_count := countH 3 content
    has_lists := hasLists content
    link_count := countLinks content
    has_proper_hierarchy := h1 = 1 ∧ 2 ≤ h2 }

/-- The recommendation messages emitted for one keyword entry, in source
order: status message, then first-paragraph message, then headings message. -/
def keywordRecs (kw : Str) (d : KeywordStat) : List Str :=
  (if d.status = "missing".data then
     ["Keyword '".data ++ kw ++ "' is not present. Add it naturally.".data]
   else if d.status = "too_low".data then
     ["Keyword '".data ++ kw ++ "' density is too low. Use it more frequently.".data]
   else if d.status = "too_high".data then
     ["Keyword '".data ++ kw
       ++ "' density is too high. Reduce usage to avoid keyword stuffing.".data]
   else [])
  ++ (if d.in_first_paragraph then []
      else ["Include '".data ++ kw ++ "' in the first paragraph.".data])
  ++ (if d.in_headings then []
      else ["Use '".data ++ kw ++ "' in at least one heading.".data])

/-- `SEOOptimizer._generate_recommendations`: the fixed rule sequence —
word count, then the keyword entries in dict order (the `keywords` argument
of the Python function is not used by its body, which iterates the
`keyword_analysis` dict), then structure, then readability. -/
def generateRecommendations (word_count : Nat)
    (kwa : List (Str × KeywordStat)) (st : StructureInfo)
    (rd : Readability) : List Str :=
  (if word_count < 800 then
     ["Content is too short. Aim for at least 800 words for better SEO.".data]
   else [])
  ++ (kwa.map (fun p => keywordRecs p.1 p.2)).flatten
  ++ (if st.h1_count = 0 then ["Add an H1 heading (title).".data]
      else if 1 < st.h1_count then ["Use only one H1 heading.".data]
      else [])
  ++ (if st.h2_count < 2 then
        ["Add more H2 subheadings to improve structure.".data]
      else [])
  ++ (if st.has_lists then []
      else ["Consider adding bullet points or lists for better readability.".data])
  ++ (if st.link_count < 2 then
        ["Add internal and external links to improve SEO.".data]
      else [])
  ++ (if rd.readability_level = "difficult".data then
        ["Simplify sentence structure for better readability.".data]
      else [])

/-- The per-keyword step of `SEOOptimizer._calculate_seo_score`: `-20` for a
missing keyword, else `-10` for a non-optimal one, and independently `-5`
when the keyword is not in the first paragraph. -/
def kwScoreStep (acc : ℤ) (d : KeywordStat) : ℤ :=
  let a :=
    if d.status = "missing".data then acc - 20
    else if d.status ≠ "optimal".data then acc - 10
    else acc
  if d.in_first_paragraph then a else a - 5

/-- `SEOOptimizer._calculate_seo_score`: start at 100, deduct the word-count,
keyword, and structure penalties, clamp to `[0, 100]`. -/
def calculateSeoScore (word_count : Nat)
    (kwa : List (Str × KeywordStat)) (st : StructureInfo) : ℤ :=
  let s1 : ℤ :=
    if word_count < 500 then 100 - 30
    else if word_count < 800 then 100 - 15
    else 100
  let s2 := kwa.foldl (fun acc p => kwScoreStep acc p.2) s1
  let s3 := if st.has_proper_hierarchy then s2 else s2 - 10
  let s4 := if st.link_count < 2 then s3 - 5 else s3
  max 0 (min 100 s4)

/-- `SEOOptimizer.analyze_content`. -/
def analyzeContent (content : Str) (keywords : List Str) : SEOReport :=
  let word_count := totalWords content
  let kwa := analyzeKeywords content keywords
  let rd := analyzeReadability content
  let st := analyzeStructure content
  { word_count := word_count
    keyword_analysis := kwa
    readability := rd
    structure_info := st
    recommendations := generateRecommendations word_count kwa st rd
    seo_score := calculateSeoScore word_count kwa st }

/-! ### Helper lemmas -/

theorem ratFloor_eq (x : ℚ) : x.floor = ⌊x⌋ :=
  (Rat.floor_def' x).trans Rat.floor_def.symm

theorem pyRound_eq_round (n : Nat) (q : ℚ) :
    pyRound n q = (round (q * 10 ^ n) : ℚ) / 10 ^ n := by
  rw [pyRound, ratFloor_eq, round_eq]

/-- Rounding to one decimal is the identity on integer multiples of `1/10`
(the reachable means of the 5-dimension variants). -/
theorem pyRound_one_tenths (k : ℤ) : pyRound 1 ((k : ℚ) / 10) = (k : ℚ) / 10 := by
  rw [pyRound]
  have h1 : (k : ℚ) / 10 * 10 ^ 1 = (k : ℚ) := by field_simp
  rw [h1]
  have h2 : ((k : ℚ) + 1 / 2).floor = k := by
    rw [ratFloor_eq, Int.floor_int_add]
    norm_num
  rw [h2]
  norm_num

/-- `q` is half an integer.  Every constant the dimension scorers add or
subtract is one, so every pre-clamp score is one. -/
def IsHalfInt (q : ℚ) : Prop := ∃ k : ℤ, q = (k : ℚ) / 2

theorem isHalfInt_c (k : ℤ) (q : ℚ) (h : q * 2 = (k : ℚ)) : IsHalfInt q :=
  ⟨k, by rw [← h]; ring⟩

theorem IsHalfInt.add {a b : ℚ} : IsHalfInt a → IsHalfInt b → IsHalfInt (a + b)
  | ⟨j, hj⟩, ⟨k, hk⟩ => ⟨j + k, by rw [hj, hk]; push_cast; ring⟩

theorem IsHalfInt.sub {a b : ℚ} : IsHalfInt a → IsHalfInt b → IsHalfInt (a - b)
  | ⟨j, hj⟩, ⟨k, hk⟩ => ⟨j - k, by rw [hj, hk]; push_cast; ring⟩

theorem isHalfInt_ite (c : Prop) [Decidable c] {a b : ℚ}
    (ha : IsHalfInt a) (hb : IsHalfInt b) : IsHalfInt (if c then a else b) := by
  split <;> assumption

theorem IsHalfInt.min {a b : ℚ} (ha : IsHalfInt a) (hb : IsHalfInt b) :
    IsHalfInt (min a b) := by
  rcases le_total a b with h | h
  · rwa [min_eq_left h]
  · rwa [min_eq_right h]

theorem isHalfInt_natMulHalf (n : ℕ) : IsHalfInt ((n : ℚ) * 0.5) :=
  ⟨n, by push_cast; norm_num; ring⟩

theorem isHalfInt_natMulThreeHalves (n : ℕ) : IsHalfInt ((n : ℚ) * 1.5) :=
  ⟨3 * n, by push_cast; norm_num; ring⟩

/-- A dimension score value: `k/2` for some `k ≤ 20`, hence in `[0, 10]`
with half-point granularity. -/
def ScoreOK (q : ℚ) : Prop := ∃ k : ℕ, k ≤ 20 ∧ q = (k : ℚ) / 2

theorem ScoreOK.bounds {q : ℚ} : ScoreOK q → 0 ≤ q ∧ q ≤ 10 := by
  rintro ⟨k, hk, rfl⟩
  have : (k : ℚ) ≤ 20 := by exact_mod_cast hk
  constructor
  · positivity
  · linarith

theorem scoreOK_clamp {x : ℚ} (hx : IsHalfInt x) : ScoreOK (min 10 (max 0 x)) := by
  obtain ⟨j, rfl⟩ := hx
  rcases le_total ((j : ℚ) / 2) 0 with h0 | h0
  · refine ⟨0, by norm_num, ?_⟩
    rw [max_eq_left h0]
    norm_num
  · rw [max_eq_right h0]
    rcases le_total (10 : ℚ) ((j : ℚ) / 2) with h10 | h10
    · refine ⟨20, le_refl _, ?_⟩
      rw [min_eq_left h10]
      norm_num
    · rw [min_eq_right h10]
      have hj0 : 0 ≤ j := by
        have : (0 : ℚ) ≤ (j : ℚ) := by linarith
        exact_mod_cast this
      have hj20 : j ≤ 20 := by
        have : (j : ℚ) ≤ 20 := by linarith
        exact_mod_cast this
      refine ⟨j.toNat, by omega, ?_⟩
      have hc : ((j.toNat : ℕ) : ℚ) = (j : ℚ) := by
        exact_mod_cast congrArg (fun z : ℤ => (z : ℚ)) (Int.toNat_of_nonneg hj0)
      rw [hc]

theorem scoreOK_min {x : ℚ} (hx : IsHalfInt x) (h0 : 0 ≤ x) :
    ScoreOK (min 10 x) := by
  have h := scoreOK_clamp hx
  rwa [max_eq_right h0] at h

theorem ite_nonneg (c : Prop) [Decidable c] {a b : ℚ}
    (ha : 0 ≤ a) (hb : 0 ≤ b) : 0 ≤ ite c a b := by
  split <;> assumption


theorem isHalfInt_bonus (c : Prop) [Decidable c] {q : ℚ} (h : IsHalfInt q) :
    IsHalfInt (bonus c q) :=
  isHalfInt_ite c h ⟨0, by norm_num⟩

theorem isHalfInt_bonus2 (c1 : Prop) [Decidable c1] (c2 : Prop) [Decidable c2]
    {q1 q2 : ℚ} (h1 : IsHalfInt q1) (h2 : IsHalfInt q2) :
    IsHalfInt (bonus2 c1 q1 c2 q2) :=
  isHalfInt_ite c1 h1 (isHalfInt_ite c2 h2 ⟨0, by norm_num⟩)

theorem bonus_nonneg (c : Prop) [Decidable c] {q : ℚ} (h : 0 ≤ q) :
    0 ≤ bonus c q :=
  ite_nonneg c h le_rfl

theorem bonus2_nonneg (c1 : Prop) [Decidable c1] (c2 : Prop) [Decidable c2]
    {q1 q2 : ℚ} (h1 : 0 ≤ q1) (h2 : 0 ≤ q2) : 0 ≤ bonus2 c1 q1 c2 q2 :=
  ite_nonneg c1 h1 (ite_nonneg c2 h2 le_rfl)

theorem scoreOK_engagement (content : Str) : ScoreOK (scoreEngagement content) := by
  have h05 : IsHalfInt 0.5 := isHalfInt_c 1 0.5 (by norm_num)
  have h1 : IsHalfInt 1 := isHalfInt_c 2 1 (by norm_num)
  have h5 : IsHalfInt 5 := isHalfInt_c 10 5 (by norm_num)
  simp only [scoreEngagement]
  exact scoreOK_min
    (((((h5.add (isHalfInt_bonus _ h1)).add (isHalfInt_bonus _ h1)).add
        (isHalfInt_bonus _ h05)).add (isHalfInt_bonus _ h1)).add
      (isHalfInt_bonus _ h05))
    (add_nonneg (add_nonneg (add_nonneg (add_nonneg
        (add_nonneg (by norm_num) (bonus_nonneg _ (by norm_num)))
        (bonus_nonneg _ (by norm_num))) (bonus_nonneg _ (by norm_num)))
      (bonus_nonneg _ (by norm_num))) (bonus_nonneg _ (by norm_num)))

theorem scoreOK_structure (content : Str) : ScoreOK (scoreStructure content) := by
  have h05 : IsHalfInt 0.5 := isHalfInt_c 1 0.5 (by norm_num)
  have h1 : IsHalfInt 1 := isHalfInt_c 2 1 (by norm_num)
  have h2 : IsHalfInt 2 := isHalfInt_c 4 2 (by norm_num)
  have h5 : IsHalfInt 5 := isHalfInt_c 10 5 (by norm_num)
  simp only [scoreStructure]
  exact scoreOK_min
    ((((h5.add (isHalfInt_bonus2 _ _ h2 h1)).add (isHalfInt_bonus _ h1)).add
        (isHalfInt_bonus _ h1)).add
      (isHalfInt_bonus _ ((isHalfInt_bonus _ h05).add (isHalfInt_bonus _ h05))))
    (add_nonneg (add_nonneg (add_nonneg
        (add_nonneg (by norm_num) (bonus2_nonneg _ _ (by norm_num) (by norm_num)))
        (bonus_nonneg _ (by norm_num))) (bonus_nonneg _ (by norm_num)))
      (bonus_nonneg _ (add_nonneg (bonus_nonneg _ (by norm_num))
        (bonus_nonneg _ (by norm_num)))))

theorem scoreOK_clarity (content : Str) : ScoreOK (scoreClarity content) := by
  have h1 : IsHalfInt 1 := isHalfInt_c 2 1 (by norm_num)
  simp only [scoreClarity]
  exact scoreOK_clamp
    (((isHalfInt_c 14 7 (by norm_num)).add
        (isHalfInt_bonus _
          ((isHalfInt_bonus2 _ _ (isHalfInt_c (-4) (-2) (by norm_num))
            (isHalfInt_c (-2) (-1) (by norm_num))).add
           (isHalfInt_bonus _ h1)))).add
      (isHalfInt_bonus _ h1))

theorem scoreOK_actionability (content : Str) :
    ScoreOK (scoreActionability content) := by
  simp only [scoreActionability]
  exact scoreOK_min
    (((((isHalfInt_c 10 5 (by norm_num)).add
          ((isHalfInt_c 4 2 (by norm_num)).min (isHalfInt_natMulHalf _))).add
        (isHalfInt_bonus _ (isHalfInt_c 3 1.5 (by norm_num)))).add
      (isHalfInt_bonus _ (isHalfInt_c 2 1 (by norm_num)))).add
      (isHalfInt_bonus _ (isHalfInt_c 1 0.5 (by norm_num))))
    (add_nonneg (add_nonneg (add_nonneg
        (add_nonneg (by norm_num) (le_min (by norm_num) (by positivity)))
        (bonus_nonneg _ (by norm_num))) (bonus_nonneg _ (by norm_num)))
      (bonus_nonneg _ (by norm_num)))

theorem scoreOK_professionalism (content : Str) :
    ScoreOK (scoreProfessionalism content) := by
  simp only [scoreProfessionalism]
  exact scoreOK_clamp
    ((((isHalfInt_c 16 8 (by norm_num)).sub
        (isHalfInt_bonus2 _ _ (isHalfInt_c 4 2 (by norm_num))
          (isHalfInt_c 2 1 (by norm_num)))).sub
      (isHalfInt_bonus _ (isHalfInt_c 2 1 (by norm_num)))).add
      (isHalfInt_bonus _ (isHalfInt_c 2 1 (by norm_num))))

theorem scoreOK_hook (content : Str) : ScoreOK (scoreHook content) := by
  have h1 : IsHalfInt 1 := isHalfInt_c 2 1 (by norm_num)
  have h2 : IsHalfInt 2 := isHalfInt_c 4 2 (by norm_num)
  simp only [scoreHook]
  exact scoreOK_min
    (((((isHalfInt_c 10 5 (by norm_num)).add (isHalfInt_bonus _ h2)).add
        (isHalfInt_bonus _ h2)).add (isHalfInt_bonus _ h1)).add
      (isHalfInt_bonus _ h1))
    (add_nonneg (add_nonneg (add_nonneg
        (add_nonneg (by norm_num) (bonus_nonneg _ (by norm_num)))
        (bonus_nonneg _ (by norm_num))) (bonus_nonneg _ (by norm_num)))
      (bonus_nonneg _ (by norm_num)))

theorem scoreOK_linkedinEngagement (content : Str) :
    ScoreOK (scoreLinkedinEngagement content) := by
  have h05 : IsHalfInt 0.5 := isHalfInt_c 1 0.5 (by norm_num)
  have h1 : IsHalfInt 1 := isHalfInt_c 2 1 (by norm_num)
  simp only [scoreLinkedinEngagement]
  exact scoreOK_min
    ((((((isHalfInt_c 10 5 (by norm_num)).add
          (isHalfInt_bonus _ (isHalfInt_c 3 1.5 (by norm_num)))).add
        (isHalfInt_bonus _ h1)).add (isHalfInt_bonus _ h1)).add
      (isHalfInt_bonus _ h05)).add (isHalfInt_bonus _ h1))
    (add_nonneg (add_nonneg (add_nonneg (add_nonneg
        (add_nonneg (by norm_num) (bonus_nonneg _ (by norm_num)))
        (bonus_nonneg _ (by norm_num))) (bonus_nonneg _ (by norm_num)))
      (bonus_nonneg _ (by norm_num))) (bonus_nonneg _ (by norm_num)))

theorem scoreOK_cta (content : Str) : ScoreOK (scoreCta content) := by
  simp only [scoreCta]
  exact scoreOK_min
    (((isHalfInt_c 10 5 (by norm_num)).add
        ((isHalfInt_c 6 3 (by norm_num)).min (isHalfInt_natMulThreeHalves _))).add
      (isHalfInt_bonus _ (isHalfInt_c 4 2 (by norm_num))))
    (add_nonneg (add_nonneg (by norm_num) (le_min (by norm_num) (by positivity)))
      (bonus_nonneg _ (by norm_num)))

theorem scoreOK_linkedinFormatting (content : Str) :
    ScoreOK (scoreLinkedinFormatting content) := by
  simp only [scoreLinkedinFormatting]
  exact scoreOK_clamp
    ((((isHalfInt_c 10 5 (by norm_num)).add
        (isHalfInt_bonus _ (isHalfInt_c 4 2 (by norm_num)))).add
      (isHalfInt_bonus2 _ _ (isHalfInt_c 3 1.5 (by norm_num))
        (isHalfInt_c (-2) (-1) (by norm_num)))).add
      (isHalfInt_bonus2 _ _ (isHalfInt_c 3 1.5 (by norm_num))
        (isHalfInt_c (-2) (-1) (by norm_num))))

/-- Grade stability for the general variant: a mean of three half-integer
scores is `K/6` with `K ≤ 60`, and rounding such a value to one decimal
never moves it across a grade threshold (checked for all 61 values). -/
theorem grade_stable_sixths : ∀ K : ℕ, K ≤ 60 →
    getGrade ((K : ℚ) / 6) = getGrade (pyRound 1 ((K : ℚ) / 6)) := by
  intro K hK
  interval_cases K <;>
    · simp only [pyRound, ratFloor_eq]
      norm_num [getGrade]

theorem grade_eq_blog (content : Str) :
    (scoreBlogContent content).grade
      = getGrade (scoreBlogContent content).overall_score := by
  obtain ⟨k1, -, e1⟩ := scoreOK_engagement content
  obtain ⟨k2, -, e2⟩ := scoreOK_structure content
  obtain ⟨k3, -, e3⟩ := scoreOK_clarity content
  obtain ⟨k4, -, e4⟩ := scoreOK_actionability content
  obtain ⟨k5, -, e5⟩ := scoreOK_professionalism content
  simp only [scoreBlogContent]
  show getGrade ((scoreEngagement content + (scoreStructure content
        + (scoreClarity content + (scoreActionability content
          + (scoreProfessionalism content + 0))))) / 5)
      = getGrade (pyRound 1 ((scoreEngagement content + (scoreStructure content
        + (scoreClarity content + (scoreActionability content
          + (scoreProfessionalism content + 0))))) / 5))
  rw [e1, e2, e3, e4, e5]
  have hM : ((k1 : ℚ) / 2 + ((k2 : ℚ) / 2 + ((k3 : ℚ) / 2 + ((k4 : ℚ) / 2
        + ((k5 : ℚ) / 2 + 0))))) / 5
      = (((k1 + k2 + k3 + k4 + k5 : ℕ) : ℤ) : ℚ) / 10 := by
    push_cast
    ring
  rw [hM, pyRound_one_tenths]

theorem grade_eq_linkedin (content : Str) :
    (scoreLinkedinContent content).grade
      = getGrade (scoreLinkedinContent content).overall_score := by
  obtain ⟨k1, -, e1⟩ := scoreOK_hook content
  obtain ⟨k2, -, e2⟩ := scoreOK_linkedinEngagement content
  obtain ⟨k3, -, e3⟩ := scoreOK_professionalism content
  obtain ⟨k4, -, e4⟩ := scoreOK_cta content
  obtain ⟨k5, -, e5⟩ := scoreOK_linkedinFormatting content
  simp only [scoreLinkedinContent]
  show getGrade ((scoreHook content + (scoreLinkedinEngagement content
        + (scoreProfessionalism content + (scoreCta content
          + (scoreLinkedinFormatting content + 0))))) / 5)
      = getGrade (pyRound 1 ((scoreHook content + (scoreLinkedinEngagement content
        + (scoreProfessionalism content + (scoreCta content
          + (scoreLinkedinFormatting content + 0))))) / 5))
  rw [e1, e2, e3, e4, e5]
  have hM : ((k1 : ℚ) / 2 + ((k2 : ℚ) / 2 + ((k3 : ℚ) / 2 + ((k4 : ℚ) / 2
        + ((k5 : ℚ) / 2 + 0))))) / 5
      = (((k1 + k2 + k3 + k4 + k5 : ℕ) : ℤ) : ℚ) / 10 := by
    push_cast
    ring
  rw [hM, pyRound_one_tenths]

theorem grade_eq_general (content : Str) :
    (scoreGeneralContent content).grade
      = getGrade (scoreGeneralContent content).overall_score := by
  obtain ⟨k1, hk1, e1⟩ := scoreOK_clarity content
  obtain ⟨k2, hk2, e2⟩ := scoreOK_engagement content
  obtain ⟨k3, hk3, e3⟩ := scoreOK_professionalism content
  simp only [scoreGeneralContent]
  show getGrade ((scoreClarity content + (scoreEngagement content
        + (scoreProfessionalism content + 0))) / 3)
      = getGrade (pyRound 1 ((scoreClarity content + (scoreEngagement content
        + (scoreProfessionalism content + 0))) / 3))
  rw [e1, e2, e3]
  have hM : ((k1 : ℚ) / 2 + ((k2 : ℚ) / 2 + ((k3 : ℚ) / 2 + 0))) / 3
      = ((k1 + k2 + k3 : ℕ) : ℚ) / 6 := by
    push_cast
    ring
  rw [hM]
  exact grade_stable_sixths (k1 + k2 + k3) (by omega)

theorem leadsWith_of_take (k : Str) : ∀ (l : Str) (n : Nat),
    leadsWith k (l.take n) = true → leadsWith k l = true := by
  induction k with
  | nil => intro l n _; rfl
  | cons a as ih =>
    intro l n h
    cases l with
    | nil => simp [List.take_nil, leadsWith] at h
    | cons b bs =>
      cases n with
      | zero => simp [leadsWith] at h
      | succ m =>
        simp only [List.take_succ_cons] at h
        simp only [leadsWith, Bool.and_eq_true] at h ⊢
        exact ⟨h.1, ih bs m h.2⟩

theorem isSubstr_nil (l : Str) : isSubstr [] l = true := by
  cases l with
  | nil => rfl
  | cons c rest => simp [isSubstr, leadsWith]

theorem isSubstr_of_take (k l : Str) (n : Nat)
    (h : isSubstr k (l.take n) = true) : isSubstr k l = true := by
  induction l generalizing n with
  | nil => simpa using h
  | cons c rest ih =>
    cases n with
    | zero =>
      simp only [List.take_zero] at h
      have hk : k = [] := by
        cases k with
        | nil => rfl
        | cons a as => simp [isSubstr] at h
      rw [hk]
      exact isSubstr_nil _
    | succ m =>
      simp only [List.take_succ_cons] at h
      rw [isSubstr] at h ⊢
      rw [Bool.or_eq_true] at h ⊢
      rcases h with h1 | h1
      · refine Or.inl ?_
        exact leadsWith_of_take k (c :: rest) (m + 1)
          (by simpa [List.take_succ_cons] using h1)
      · exact Or.inr (ih m h1)

theorem countOccAux_pos (k : Str) (hk : k ≠ []) :
    ∀ (fuel : Nat) (s : Str), s.length ≤ fuel → isSubstr k s = true →
      0 < countOccAux k fuel s := by
  intro fuel
  induction fuel with
  | zero =>
    intro s hs hsub
    have hnil : s = [] := List.length_eq_zero.mp (Nat.le_zero.mp hs)
    subst hnil
    cases k with
    | nil => exact absurd rfl hk
    | cons a as => simp [isSubstr] at hsub
  | succ n ih =>
    intro s hs hsub
    cases s with
    | nil =>
      cases k with
      | nil => exact absurd rfl hk
      | cons a as => simp [isSubstr] at hsub
    | cons c rest =>
      rw [countOccAux]
      split_ifs with hlw
      · omega
      · rw [isSubstr, Bool.or_eq_true] at hsub
        rcases hsub with h1 | h1
        · exact absurd h1 hlw
        · refine ih rest ?_ h1
          simp only [List.length_cons] at hs
          omega

theorem countOcc_pos_of_isSubstr (k l : Str) (h : isSubstr k l = true) :
    0 < countOcc k l := by
  rw [countOcc]
  split_ifs with hk
  · omega
  · exact countOccAux_pos k hk l.length l le_rfl h

theorem mem_dictInsert {α : Type} {k : Str} {v : α} {l : List (Str × α)}
    {p : Str × α} : p ∈ dictInsert k v l → p = (k, v) ∨ p ∈ l := by
  induction l with
  | nil =>
    intro hp
    simp only [dictInsert, List.mem_singleton] at hp
    exact Or.inl hp
  | cons q rest ih =>
    obtain ⟨k2, v2⟩ := q
    intro hp
    rw [dictInsert] at hp
    by_cases h : k2 = k
    · rw [if_pos h] at hp
      rcases List.mem_cons.mp hp with h1 | h1
      · exact Or.inl h1
      · exact Or.inr (List.mem_cons_of_mem _ h1)
    · rw [if_neg h] at hp
      rcases List.mem_cons.mp hp with h1 | h1
      · exact Or.inr (h1 ▸ List.mem_cons_self _ _)
      · rcases ih h1 with h2 | h2
        · exact Or.inl h2
        · exact Or.inr (List.mem_cons_of_mem _ h2)

theorem keys_dictInsert {α : Type} (k : Str) (v : α) (l : List (Str × α)) :
    k ∈ (dictInsert k v l).map Prod.fst := by
  induction l with
  | nil => exact List.mem_singleton.mpr rfl
  | cons q rest ih =>
    obtain ⟨k2, v2⟩ := q
    rw [dictInsert]
    by_cases h : k2 = k
    · rw [if_pos h]
      simp only [List.map_cons]
      exact List.mem_cons_self _ _
    · rw [if_neg h]
      simp only [List.map_cons]
      exact List.mem_cons_of_mem _ ih

theorem keys_dictInsert_mono {α : Type} (k k0 : Str) (v : α)
    (l : List (Str × α)) (h : k ∈ l.map Prod.fst) :
    k ∈ (dictInsert k0 v l).map Prod.fst := by
  induction l with
  | nil => exact absurd h (List.not_mem_nil k)
  | cons q rest ih =>
    obtain ⟨k2, v2⟩ := q
    rw [dictInsert]
    by_cases h2 : k2 = k0
    · rw [if_pos h2]
      simp only [List.map_cons, List.mem_cons] at h ⊢
      rcases h with h1 | h1
      · exact Or.inl (h1.trans h2)
      · exact Or.inr h1
    · rw [if_neg h2]
      simp only [List.map_cons, List.mem_cons] at h ⊢
      rcases h with h1 | h1
      · exact Or.inl h1
      · exact Or.inr (ih h1)

theorem dictInsert_self {α : Type} (f : Str → α) (k : Str)
    (l : List (Str × α)) (hv : ∀ p ∈ l, p.2 = f p.1)
    (hk : k ∈ l.map Prod.fst) : dictInsert k (f k) l = l := by
  induction l with
  | nil => exact absurd hk (List.not_mem_nil k)
  | cons q rest ih =>
    obtain ⟨k2, v2⟩ := q
    rw [dictInsert]
    by_cases h : k2 = k
    · rw [if_pos h]
      have hvv : v2 = f k2 := hv (k2, v2) (List.mem_cons_self _ _)
      rw [hvv, h]
    · rw [if_neg h]
      have hk2 : k ∈ rest.map Prod.fst := by
        simp only [List.map_cons, List.mem_cons] at hk
        rcases hk with h1 | h1
        · exact absurd h1.symm h
        · exact h1
      rw [ih (fun p hp => hv p (List.mem_cons_of_mem _ hp)) hk2]

theorem analyzeKeywords_values (content : Str) (kws : List Str) :
    ∀ p ∈ analyzeKeywords content kws, p.2 = keywordStat content p.1 := by
  rw [analyzeKeywords]
  suffices h : ∀ acc : List (Str × KeywordStat),
      (∀ p ∈ acc, p.2 = keywordStat content p.1) →
      ∀ p ∈ kws.foldl
          (fun acc kw => dictInsert kw (keywordStat content kw) acc) acc,
        p.2 = keywordStat content p.1 by
    exact h [] (fun p hp => absurd hp (List.not_mem_nil p))
  induction kws with
  | nil => intro acc hacc; exact hacc
  | cons kw2 kws2 ih =>
    intro acc hacc
    simp only [List.foldl_cons]
    apply ih
    intro p hp
    rcases mem_dictInsert hp with h1 | h1
    · rw [h1]
    · exact hacc p h1

theorem analyzeKeywords_keys_aux (content kw : Str) : ∀ (kws : List Str)
    (acc : List (Str × KeywordStat)),
    kw ∈ kws ∨ kw ∈ acc.map Prod.fst →
    kw ∈ (kws.foldl
        (fun acc kw => dictInsert kw (keywordStat content kw) acc) acc).map
      Prod.fst := by
  intro kws
  induction kws with
  | nil =>
    intro acc hacc
    rcases hacc with h1 | h1
    · exact absurd h1 (List.not_mem_nil kw)
    · exact h1
  | cons kw2 kws2 ih =>
    intro acc hacc
    simp only [List.foldl_cons]
    apply ih
    rcases hacc with h1 | h1
    · rcases List.mem_cons.mp h1 with h2 | h2
      · exact Or.inr (by rw [h2]; exact keys_dictInsert _ _ _)
      · exact Or.inl h2
    · exact Or.inr (keys_dictInsert_mono _ _ _ _ h1)

theorem analyzeKeywords_keys (content : Str) (kws : List Str) (kw : Str)
    (hkw : kw ∈ kws) :
    kw ∈ (analyzeKeywords content kws).map Prod.fst :=
  analyzeKeywords_keys_aux content kw kws [] (Or.inl hkw)

theorem pySplit_len_pos (sep s : Str) : 1 ≤ (pySplit sep s).length := by
  rw [pySplit]
  generalize s.length + 1 = fuel
  cases fuel with
  | zero => simp [pySplitAux]
  | succ n =>
    rw [pySplitAux]
    cases h : splitFirst sep s with
    | none => simp
    | some pr => simp

/-- The spec's status ordering for score purposes:
`missing < too_low = too_high < optimal`. -/
def statusRank (s : Str) : ℕ :=
  if s = "missing".data then 0 else if s = "optimal".data then 2 else 1

/-- The `seo_score` penalties attributable to one keyword in
`_calculate_seo_score`: the status penalty (`-20` missing, `-10` other
non-optimal) plus the first-paragraph penalty (`-5`). -/
def keywordPenalty (d : KeywordStat) : ℤ :=
  (if d.status = "missing".data then 20
   else if d.status ≠ "optimal".data then 10 else 0)
  + (if d.in_first_paragraph then 0 else 5)

/-- The per-keyword fold step of the score subtracts exactly
`keywordPenalty`. -/
theorem kwScoreStep_eq (acc : ℤ) (d : KeywordStat) :
    kwScoreStep acc d = acc - keywordPenalty d := by
  simp only [kwScoreStep, keywordPenalty]
  split_ifs <;> ring

theorem assess_eq_missing_iff (d : ℚ) (n : ℕ) :
    assessKeywordUsage d n = "missing".data ↔ n = 0 := by
  rw [assessKeywordUsage]
  split_ifs with h1 h2 h3
  · simp [h1]
  · exact iff_of_false (by decide) h1
  · exact iff_of_false (by decide) h1
  · exact iff_of_false (by decide) h1

/-- Every dimension value of every report variant is a clamped half-integer
score. -/
theorem dims_scoreOK (content ctype : Str) :
    ∀ p ∈ (scoreContent content ctype).dimension_scores, ScoreOK p.2 := by
  intro p hp
  rw [scoreContent] at hp
  split at hp
  · simp only [scoreBlogContent, List.mem_cons, List.not_mem_nil,
      or_false] at hp
    rcases hp with rfl | rfl | rfl | rfl | rfl
    · exact scoreOK_engagement content
    · exact scoreOK_structure content
    · exact scoreOK_clarity content
    · exact scoreOK_actionability content
    · exact scoreOK_professionalism content
  · split at hp
    · simp only [scoreLinkedinContent, List.mem_cons, List.not_mem_nil,
        or_false] at hp
      rcases hp with rfl | rfl | rfl | rfl | rfl
      · exact scoreOK_hook content
      · exact scoreOK_linkedinEngagement content
      · exact scoreOK_professionalism content
      · exact scoreOK_cta content
      · exact scoreOK_linkedinFormatting content
    · simp only [scoreGeneralContent, List.mem_cons, List.not_mem_nil,
        or_false] at hp
      rcases hp with rfl | rfl | rfl
      · exact scoreOK_clarity content
      · exact scoreOK_engagement content
      · exact scoreOK_professionalism content

/-- A 201-word text (`"kw kw a a ... a"`) in which the keyword `"kw"`
occurs twice: the unrounded density `200/201 ≈ 0.995` rounds up to exactly
`1.00`, separating the stored `density` field from the unrounded value the
status comparison uses. -/
def boundaryText : Str :=
  "kw kw".data ++ (List.replicate 199 " a".data).flatten

/-! ### Claims -/

/-- Claim C1, counterexample: calling the Content Scorer with content type
`"short_form"` does not produce the five short-form keys; the string falls
through the `blog`/`linkedin` dispatch into the general variant, whose
`dimension_scores` keys are exactly `clarity`, `engagement`,
`professionalism`. -/
theorem claim1_short_form_cex :
    (scoreContent "hello".data "short_form".data).dimension_scores.map
        Prod.fst
      = ["clarity".data, "engagement".data, "professionalism".data]
    ∧ (scoreContent "hello".data "short_form".data).dimension_scores.map
        Prod.fst
      ≠ ["hook_strength".data, "engagement_potential".data,
         "professionalism".data, "call_to_action".data, "formatting".data] :=
  ⟨rfl, by decide⟩

/-- Claim C1, amended: the code's selector string for the short-form
variant is `"linkedin"`, not `"short_form"`.  For every input text,
content type `"linkedin"` yields exactly the five short-form dimension keys
(`hook_strength`, `engagement_potential`, `professionalism`,
`call_to_action`, `formatting`), while `"short_form"` is not a recognized
selector and yields the three general keys. -/
theorem claim1_selector_keys (content : Str) :
    (scoreContent content "linkedin".data).dimension_scores.map Prod.fst
      = ["hook_strength".data, "engagement_potential".data,
         "professionalism".data, "call_to_action".data, "formatting".data]
    ∧ (scoreContent content "short_form".data).dimension_scores.map Prod.fst
      = ["clarity".data, "engagement".data, "professionalism".data] :=
  ⟨rfl, rfl⟩

/-- Claim C2: for every input text and every content-type string, the
report's `overall_score` equals the arithmetic mean of the values of its
own `dimension_scores`, rounded to one decimal. -/
theorem claim2_overall_rounded_mean (content ctype : Str) :
    (scoreContent content ctype).overall_score
      = pyRound 1
          ((((scoreContent content ctype).dimension_scores.map Prod.snd).sum)
            / (((scoreContent content ctype).dimension_scores.length : ℕ) : ℚ)) := by
  rw [scoreContent]
  split
  · rfl
  · split
    · rfl
    · rfl

/-- Claim C3: for every text and content type the `grade` field equals the
fixed threshold table applied to the report's own (1-decimal rounded)
`overall_score` field — the code grades the unrounded mean, but rounding a
reachable mean to one decimal never crosses a grade threshold — and the
table sends `8.0` to `A-` and `7.99` to `B+`. -/
theorem claim3_grade_from_overall :
    (∀ content ctype : Str,
      (scoreContent content ctype).grade
        = getGrade (scoreContent content ctype).overall_score)
    ∧ getGrade 8 = "A-".data ∧ getGrade (799 / 100) = "B+".data := by
  refine ⟨fun content ctype => ?_, by norm_num [getGrade], by norm_num [getGrade]⟩
  rw [scoreContent]
  split
  · exact grade_eq_blog content
  · split
    · exact grade_eq_linkedin content
    · exact grade_eq_general content

/-- Claim C4, counterexample: a duplicated keyword does not get one
`keyword_analysis` entry per occurrence — with `keywords = ["ai", "ai"]`
the dict has a single entry, and the whole report (penalties and
recommendations included) equals the report for `["ai"]`. -/
theorem claim4_duplicate_cex :
    (analyzeContent "x".data ["ai".data, "ai".data]).keyword_analysis.length
      = 1
    ∧ analyzeContent "x".data ["ai".data, "ai".data]
      = analyzeContent "x".data ["ai".data] := by
  constructor
  · decide
  · simp [analyzeContent, analyzeKeywords, dictInsert]

/-- Claim C4, amended: keywords are processed in input order, but a
duplicated keyword overwrites its own dict entry with the identical
recomputed value, so `keyword_analysis` has one entry per distinct keyword
and penalties and recommendations are applied once per distinct keyword:
appending a keyword already in the list leaves the whole report
unchanged. -/
theorem claim4_duplicates_collapse (content : Str) (kws : List Str)
    (kw : Str) (hkw : kw ∈ kws) :
    analyzeContent content (kws ++ [kw]) = analyzeContent content kws := by
  have hkwa : analyzeKeywords content (kws ++ [kw])
      = analyzeKeywords content kws := by
    rw [analyzeKeywords, analyzeKeywords, List.foldl_append]
    simp only [List.foldl_cons, List.foldl_nil]
    exact dictInsert_self (keywordStat content) kw _
      (analyzeKeywords_values content kws)
      (analyzeKeywords_keys content kws kw hkw)
  unfold analyzeContent
  rw [hkwa]

/-- Witness for C4's amended theorem at a concrete duplicate list. -/
theorem claim4_duplicates_collapse_witness :
    analyzeContent "x".data (["ai".data] ++ ["ai".data])
      = analyzeContent "x".data ["ai".data] :=
  claim4_duplicates_collapse "x".data ["ai".data] "ai".data
    (List.mem_singleton.mpr rfl)

/-- Claim C5, counterexample: on a 201-word text containing the keyword
twice, the stored `density` field is exactly `1.00` (not `< 1`), yet the
status is `"too_low"` — the status is computed from the unrounded density
`200/201`, not from the rounded `density` field as the claim states. -/
theorem claim5_rounded_density_cex :
    (keywordStat boundaryText "kw".data).count ≠ 0
    ∧ ¬ (keywordStat boundaryText "kw".data).density < 1
    ∧ (keywordStat boundaryText "kw".data).status = "too_low".data := by
  have hd : rawDensity boundaryText "kw".data = 200 / 201 := by
    rw [rawDensity, show totalWords boundaryText = 201 from by decide,
        show kwCount boundaryText "kw".data = 2 from by decide]
    norm_num
  refine ⟨?_, ?_, ?_⟩
  · show kwCount boundaryText "kw".data ≠ 0
    decide
  · show ¬ pyRound 2 (rawDensity boundaryText "kw".data) < 1
    rw [hd, pyRound, ratFloor_eq]
    norm_num
  · show assessKeywordUsage (rawDensity boundaryText "kw".data)
        (kwCount boundaryText "kw".data) = "too_low".data
    rw [hd, show kwCount boundaryText "kw".data = 2 from by decide,
        assessKeywordUsage]
    norm_num

/-- Claim C5, amended: the stored `density` field is the 2-decimal rounding
of the unrounded density, and `status` is characterized by the *unrounded*
density: `missing` iff `count = 0`, else `too_low` iff unrounded
density `< 1.0`, else `too_high` iff unrounded density `> 2.5`, else
`optimal`. -/
theorem claim5_status_characterization (content keyword : Str) :
    (keywordStat content keyword).density
      = pyRound 2 (rawDensity content keyword)
    ∧ (keywordStat content keyword).status
      = (if kwCount content keyword = 0 then "missing".data
         else if rawDensity content keyword < 1 then "too_low".data
         else if 2.5 < rawDensity content keyword then "too_high".data
         else "optimal".data) :=
  ⟨rfl, rfl⟩

/-- Claim C6: every dimension score of every Content Scorer variant lies in
`[0, 10]`, and the SEO Optimizer's `seo_score` lies in `[0, 100]`. -/
theorem claim6_score_ranges (content ctype : Str) (kws : List Str) :
    (∀ p ∈ (scoreContent content ctype).dimension_scores,
      0 ≤ p.2 ∧ p.2 ≤ 10)
    ∧ 0 ≤ (analyzeContent content kws).seo_score
    ∧ (analyzeContent content kws).seo_score ≤ 100 := by
  refine ⟨fun p hp => (dims_scoreOK content ctype p hp).bounds, ?_, ?_⟩
  · show (0 : ℤ) ≤ max 0 _
    exact le_max_left _ _
  · show max 0 (min 100 _) ≤ (100 : ℤ)
    exact max_le (by norm_num) (min_le_left _ _)

/-- Witness for C6 at a concrete text, content type, and keyword list. -/
theorem claim6_score_ranges_witness :
    (0 ≤ (("engagement".data, scoreEngagement "hi".data) : Str × ℚ).2
      ∧ (("engagement".data, scoreEngagement "hi".data) : Str × ℚ).2 ≤ 10)
    ∧ 0 ≤ (analyzeContent "hi".data []).seo_score
    ∧ (analyzeContent "hi".data []).seo_score ≤ 100 :=
  ⟨(claim6_score_ranges "hi".data "blog".data []).1 _
      (List.mem_cons_self _ _),
   (claim6_score_ranges "hi".data "blog".data []).2.1,
   (claim6_score_ranges "hi".data "blog".data []).2.2⟩

/-- Claim C7: if a keyword is `missing` in a text, then in any text where
occurrences of it have been added (so that its count is positive — in
particular after inserting it into the first paragraph and a heading) its
status rank under `missing < too_low/too_high < optimal` never decreases,
and the `seo_score` penalties attributable to it (status penalty plus
first-paragraph penalty) never increase. -/
theorem claim7_missing_keyword_monotone (content content2 keyword : Str)
    (hmiss : (keywordStat content keyword).status = "missing".data)
    (hadd : 0 < kwCount content2 keyword) :
    statusRank (keywordStat content keyword).status
      ≤ statusRank (keywordStat content2 keyword).status
    ∧ keywordPenalty (keywordStat content2 keyword)
      ≤ keywordPenalty (keywordStat content keyword) := by
  have hcount : kwCount content keyword = 0 :=
    (assess_eq_missing_iff (rawDensity content keyword)
      (kwCount content keyword)).mp hmiss
  have hnotfp : (keywordStat content keyword).in_first_paragraph = false := by
    show isSubstr (lowerStr keyword) ((lowerStr content).take 500) = false
    by_contra hne
    have htrue : isSubstr (lowerStr keyword) ((lowerStr content).take 500)
        = true := by
      cases hb : isSubstr (lowerStr keyword) ((lowerStr content).take 500)
      · exact absurd hb hne
      · rfl
    have hpos := countOcc_pos_of_isSubstr _ _
      (isSubstr_of_take _ (lowerStr content) 500 htrue)
    rw [show countOcc (lowerStr keyword) (lowerStr content)
        = kwCount content keyword from rfl, hcount] at hpos
    omega
  have hp1 : keywordPenalty (keywordStat content keyword) = 25 := by
    rw [keywordPenalty, hmiss, if_pos rfl, hnotfp]
    norm_num
  have hs2 : (keywordStat content2 keyword).status ≠ "missing".data := by
    intro h
    have := (assess_eq_missing_iff (rawDensity content2 keyword)
      (kwCount content2 keyword)).mp h
    omega
  constructor
  · rw [hmiss]
    simp only [statusRank, if_pos rfl]
    exact Nat.zero_le _
  · rw [hp1, keywordPenalty, if_neg hs2]
    have h10 : (if (keywordStat content2 keyword).status ≠ "optimal".data
        then (10 : ℤ) else 0) ≤ 10 := by
      split_ifs <;> norm_num
    have h5 : (if (keywordStat content2 keyword).in_first_paragraph
        then (0 : ℤ) else 5) ≤ 5 := by
      split_ifs <;> norm_num
    linarith

/-- Witness for C7: `"kw"` is missing in `"b"` and present in `"kw b"`. -/
theorem claim7_missing_keyword_monotone_witness :
    statusRank (keywordStat "b".data "kw".data).status
      ≤ statusRank (keywordStat "kw b".data "kw".data).status
    ∧ keywordPenalty (keywordStat "kw b".data "kw".data)
      ≤ keywordPenalty (keywordStat "b".data "kw".data) :=
  claim7_missing_keyword_monotone "b".data "kw b".data "kw".data
    (by decide) (by decide)

/-- Claim C8: both analyzers are deterministic — two calls on identical
inputs return identical reports (the modelled `ScoreReport` excludes the
`timestamp` field, which is the one report component outside the pure
model; the SEO report has no timestamp and is identical in full). -/
theorem claim8_deterministic (c1 c2 t1 t2 : Str) (k1 k2 : List Str)
    (hc : c1 = c2) (ht : t1 = t2) (hk : k1 = k2) :
    scoreContent c1 t1 = scoreContent c2 t2
    ∧ analyzeContent c1 k1 = analyzeContent c2 k2 := by
  subst hc
  subst ht
  subst hk
  exact ⟨rfl, rfl⟩

/-- Witness for C8 at concrete inputs. -/
theorem claim8_deterministic_witness :
    scoreContent "a".data "blog".data = scoreContent "a".data "blog".data
    ∧ analyzeContent "a".data [] = analyzeContent "a".data [] :=
  claim8_deterministic "a".data "a".data "blog".data "blog".data [] []
    rfl rfl rfl

/-- Claim C9: `paragraph_count` is the number of segments of splitting on
the two-character separator `"\n\n"` with empty segments kept, hence is
always at least 1; the empty string yields exactly 1. -/
theorem claim9_paragraph_count (content : Str) (kws : List Str) :
    (analyzeContent content kws).readability.paragraph_count
      = (pySplit ['\n', '\n'] content).length
    ∧ 1 ≤ (analyzeContent content kws).readability.paragraph_count
    ∧ (analyzeContent [] []).readability.paragraph_count = 1 := by
  refine ⟨rfl, ?_, rfl⟩
  show 1 ≤ (pySplit ['\n', '\n'] content).length
  exact pySplit_len_pos _ _

/-- Claim C10: for the empty keyword the reported count is
`len(text) + 1` (Python's empty-substring count), the analysis dict maps
the empty keyword to that stat, and its status is never `"missing"`. -/
theorem claim10_empty_keyword (content : Str) :
    (analyzeContent content [[]]).keyword_analysis
      = [([], keywordStat content [])]
    ∧ (keywordStat content []).count = content.length + 1
    ∧ (keywordStat content []).status ≠ "missing".data := by
  refine ⟨rfl, ?_, ?_⟩
  · show kwCount content [] = content.length + 1
    simp [kwCount, countOcc, lowerStr]
  · show assessKeywordUsage (rawDensity content []) (kwCount content [])
      ≠ "missing".data
    intro h
    have h0 : kwCount content [] = 0 := (assess_eq_missing_iff _ _).mp h
    have h1 : kwCount content [] = content.length + 1 := by
      simp [kwCount, countOcc, lowerStr]
    omega

end ContentBlitz
